import Mathlib

/-!
# Verification of the Vector/Raster CRT simulation core

Shallow embedding of `src/components/RetroScreen.tsx`: coordinate scales,
scene assembly, the vector beam scheduler (`animateVectorCycle`) and the
raster scan scheduler (`runScanline`), with numbers modelled as exact
rationals.  Asynchronous suspension is modelled by dividing a scheduler run
into numbered slices: slice `n` is the synchronous stretch of code executed
after the `n`-th suspension (timer wait or awaited transition) resolves.
JavaScript is single threaded, so the `isMounted` liveness flag is constant
within a slice; a liveness oracle `live : Nat -> Bool` gives its value in
each slice.
-/

/-- Logical point in the 0-100 square (`VectorPoint` in `types.ts`). -/
structure VectorPoint where
  x : ℚ
  y : ℚ
deriving DecidableEq, Repr

/-- `VectorShape` from `types.ts`: id, ordered points, closed flag. -/
structure VectorShape where
  id : String
  points : List VectorPoint
  closed : Bool
deriving DecidableEq, Repr

/-- `ContentMode` from `types.ts`. -/
inductive ContentMode where
  | PRESET
  | DRAW
  | TEXT
deriving DecidableEq, Repr

/-- `DisplayMode` from `types.ts`. -/
inductive DisplayMode where
  | VECTOR
  | RASTER
deriving DecidableEq, Repr

/-- The preset closed 4-point polygon `SHIP_SHAPE` (RetroScreen.tsx lines 17-26). -/
def SHIP_SHAPE : VectorShape :=
  { id := "ship"
    points := [⟨50, 35⟩, ⟨65, 65⟩, ⟨50, 55⟩, ⟨35, 65⟩]
    closed := true }

/-! ## CoordinateMapper: d3.scaleLinear

`d3.scaleLinear().domain([d0,d1]).range([r0,r1])` maps
`x ↦ r0 + normalize(d0,d1)(x) * (r1 - r0)`, where d3-interpolate's
`normalize` is the constant `1/2` on a degenerate domain.  With
`.clamp(true)` the input is first clamped into the domain interval. -/

/-- d3's `clamper(a, b)`: clamp `x` into `[min a b, max a b]`. -/
def d3Clamper (a b x : ℚ) : ℚ :=
  max (min a b) (min (max a b) x)

/-- d3's `normalize(a, b)`: `(x - a) / (b - a)`, constant `1/2` when `b = a`. -/
def d3Normalize (a b x : ℚ) : ℚ :=
  if b - a = 0 then 1 / 2 else (x - a) / (b - a)

/-- A non-clamping `d3.scaleLinear().domain([d0,d1]).range([r0,r1])`. -/
def d3ScaleLinear (d0 d1 r0 r1 x : ℚ) : ℚ :=
  r0 + d3Normalize d0 d1 x * (r1 - r0)

/-- A `d3.scaleLinear(...).clamp(true)`: input clamped into the domain first. -/
def d3ScaleLinearClamped (d0 d1 r0 r1 x : ℚ) : ℚ :=
  d3ScaleLinear d0 d1 r0 r1 (d3Clamper d0 d1 x)

/-- The margin used by both the render scales and the click inverse mapping
(RetroScreen.tsx lines 66 and 97). -/
def margin : ℚ := 20

/-- Forward x scale (line 98): logical `[0,100]` to device `[margin, width-margin]`. -/
def xScale (width lx : ℚ) : ℚ :=
  d3ScaleLinear 0 100 margin (width - margin) lx

/-- Forward y scale (line 99): logical `[0,100]` to device `[margin, height-margin]`. -/
def yScale (height ly : ℚ) : ℚ :=
  d3ScaleLinear 0 100 margin (height - margin) ly

/-- Inverse x mapping used by `handleSvgClick` (lines 70-73): device pixels to
logical `[0,100]`, clamped. -/
def logicalX (width px : ℚ) : ℚ :=
  d3ScaleLinearClamped margin (width - margin) 0 100 px

/-- Inverse y mapping used by `handleSvgClick` (lines 75-78). -/
def logicalY (height py : ℚ) : ℚ :=
  d3ScaleLinearClamped margin (height - margin) 0 100 py

/-- The forward-then-inverse x round trip. -/
def roundTripX (width px : ℚ) : ℚ := logicalX width (xScale width px)

/-- The forward-then-inverse y round trip. -/
def roundTripY (height py : ℚ) : ℚ := logicalY height (yScale height py)

/-- A logical point mapped to device pixels by the forward scales. -/
def devicePoint (width height : ℚ) (p : VectorPoint) : ℚ × ℚ :=
  (xScale width p.x, yScale height p.y)

/-! ## SceneSource: scene assembly (`shapesToDraw`, lines 119-138)

Text mode delegates to the external glyph generator `textToVectorShapes`
(imported from `utils/vectorFont`, an out-of-scope collaborator).  It is
modelled as an arbitrary function returning `Except`: a `.error` result
stands for the generator throwing.  The `try/catch` around scene assembly
leaves `shapesToDraw` at its initial `[]` when the generator throws. -/

/-- A glyph-shape generator: `(text, baseline-y, start-x, spacing)` to a shape
list, or a fault. -/
def GlyphGen : Type := String → ℚ → ℚ → ℚ → Except String (List VectorShape)

/-- The JavaScript truthiness fallback in line 134: empty string is falsy, so
an empty `customText` is replaced by the literal `"READY"`. -/
def fallbackText (customText : String) : String :=
  if customText = "" then "READY" else customText

/-- Scene assembly (lines 119-138): `PRESET` yields the ship, `DRAW` the
accumulated clicks (empty scene before the first click), `TEXT` the glyph
generator's output with a caught fault degrading to the empty scene. -/
def shapesToDraw (gen : GlyphGen) (contentMode : ContentMode)
    (customPoints : List VectorPoint) (customText : String) : List VectorShape :=
  match contentMode with
  | ContentMode.PRESET => [SHIP_SHAPE]
  | ContentMode.DRAW =>
      if customPoints.length > 0 then
        [{ id := "custom-draw", points := customPoints, closed := false }]
      else []
  | ContentMode.TEXT =>
      match gen (fallbackText customText) 5 45 5 with
      | Except.ok shapes => shapes
      | Except.error _ => []

/-! ## VectorBeamScheduler: trace model of `animateVectorCycle` (lines 181-294)

Each display mutation or timer registration performed by the scheduler is an
event tagged with the slice (suspension count) in which the scheduler's code
performed it.  The effect cleanup (lines 365-368) sets `isMounted := false`
and synchronously interrupts all d3 transitions, so a transition's chained
`on("end", ...)` callback (the decay of a revealed stroke, line 259) can only
run while the token is still live; it is therefore recorded as part of the
`revealTransition` event that installed it. -/

/-- The traced point sequence of a shape: the stored points, with the first
point appended as a virtual closing point when `closed` (lines 187-188).
Empty shapes stay empty (they are skipped before the append). -/
def tracePoints (sh : VectorShape) : List VectorPoint :=
  match sh.points with
  | [] => []
  | p :: ps => if sh.closed then (p :: ps) ++ [p] else p :: ps

/-- Blanking wait before each shape (line 197): `200 / beamSpeed` ms. -/
def blankingDelay (speed : ℚ) : ℚ := 200 / speed

/-- Trace duration (line 250): `(len * 15) / (beamSpeed * 0.8)`. -/
def drawDuration (len speed : ℚ) : ℚ := len * 15 / (speed * (4 / 5))

/-- Inter-cycle restart delay (line 290): `100 / beamSpeed` ms. -/
def interCycleDelay (speed : ℚ) : ℚ := 100 / speed

/-- Events of one vector scheduler run.  Mutation events are attribute
changes or element insertions on the SVG; `awaitTimeout` and `timerSet`
record `setTimeout` registrations. -/
inductive VEv where
  /-- Line 194: beam moved invisibly to the shape start. -/
  | beamBlank (cx cy : ℚ)
  /-- Lines 197/216: a `setTimeout` wait of the given milliseconds. -/
  | awaitTimeout (ms : ℚ)
  /-- Lines 202/244: beam made visible. -/
  | beamOn
  /-- Lines 204-214: single-point flash dot, fading over `fade` ms. -/
  | dotFlash (cx cy fade : ℚ)
  /-- Lines 227-235: phosphor path appended with the given device points. -/
  | pathRender (d : List (ℚ × ℚ))
  /-- Line 237: `getTotalLength()` arclength measurement of the path. -/
  | measureLength (len : ℚ)
  /-- Lines 240-242: dash array/offset initialised from the length. -/
  | dashSetup (len : ℚ)
  /-- Lines 255-267: stroke reveal over `dur` ms with the chained decay
  transition of `fade` ms installed on its end. -/
  | revealTransition (dur fade : ℚ)
  /-- Lines 270-282: awaited beam tween over `dur` ms. -/
  | beamTransition (dur : ℚ)
  /-- Line 290: `setTimeout(animateVectorCycle, delay)` restart timer. -/
  | timerSet (delay : ℚ)
deriving DecidableEq, Repr

/-- Ambient state of one vector scheduler run: the liveness oracle (value of
`isMounted` per slice), the tunables, the viewport, and the browser's path
length oracle for `getTotalLength` on a device-space polyline. -/
structure VectorCtx where
  live : Nat → Bool
  beamSpeed : ℚ
  persistence : ℚ
  width : ℚ
  height : ℚ
  totalLength : List (ℚ × ℚ) → ℚ

/-- The body for one shape (lines 184-284), entered in slice `s` after the
loop-head liveness check.  Returns the tagged events, the slice after the
body, and `true` when control continues to the next shape (`false` when the
liveness re-check after the blanking wait failed and the run returned). -/
def shapeStep (ctx : VectorCtx) (s : Nat) (sh : VectorShape) :
    List (Nat × VEv) × Nat × Bool :=
  match tracePoints sh with
  | [] => ([], s, true)
  | p0 :: rest =>
    let start := devicePoint ctx.width ctx.height p0
    let pre := [(s, VEv.beamBlank start.1 start.2),
                (s, VEv.awaitTimeout (blankingDelay ctx.beamSpeed))]
    if ctx.live (s + 1) = false then (pre, s + 1, false)
    else if rest = [] then
      (pre ++ [(s + 1, VEv.beamOn),
               (s + 1, VEv.dotFlash start.1 start.2 ctx.persistence),
               (s + 1, VEv.awaitTimeout 100)], s + 2, true)
    else
      let d := (p0 :: rest).map (devicePoint ctx.width ctx.height)
      let len := ctx.totalLength d
      let evs := pre ++ [(s + 1, VEv.pathRender d),
                         (s + 1, VEv.measureLength len),
                         (s + 1, VEv.dashSetup len),
                         (s + 1, VEv.beamOn)]
      if 0 < len then
        (evs ++ [(s + 1, VEv.revealTransition (drawDuration len ctx.beamSpeed) ctx.persistence),
                 (s + 1, VEv.beamTransition (drawDuration len ctx.beamSpeed))], s + 2, true)
      else (evs, s + 1, true)

/-- The `for` loop over the scene (lines 184-284), with the loop-head
`if (!isMounted) break` check before each shape. -/
def cycleShapes (ctx : VectorCtx) : Nat → List VectorShape → List (Nat × VEv) × Nat × Bool
  | s, [] => ([], s, true)
  | s, sh :: rest =>
    if ctx.live s = false then ([], s, false)
    else
      match shapeStep ctx s sh with
      | (evs, s1, true) =>
        match cycleShapes ctx s1 rest with
        | (evs2, s2, ok) => (evs ++ evs2, s2, ok)
      | (evs, s1, false) => (evs, s1, false)

/-- `animateVectorCycle` (lines 181-292): entry liveness check, the shape
loop, and — only when still live — the restart timer (line 290) whose firing
opens the next slice.  `fuel` bounds the otherwise endless recursion. -/
def animateVectorCycle (ctx : VectorCtx) (shapes : List VectorShape) :
    Nat → Nat → List (Nat × VEv)
  | 0, _ => []
  | fuel + 1, s =>
    if ctx.live s = false then []
    else
      match cycleShapes ctx s shapes with
      | (evs, s1, true) =>
        if ctx.live s1 = true then
          evs ++ (s1, VEv.timerSet (interCycleDelay ctx.beamSpeed)) ::
            animateVectorCycle ctx shapes fuel (s1 + 1)
        else evs
      | (evs, _, false) => evs

/-- The guard at line 171: the beam animation is only started when the scene
is non-empty; an empty scene leaves the display grid-only. -/
def startVectorAnimation (ctx : VectorCtx) (shapes : List VectorShape) (fuel : Nat) :
    List (Nat × VEv) :=
  if shapes.length > 0 then animateVectorCycle ctx shapes fuel 0 else []

/-! ## RasterScanScheduler: trace model of `runScanline` (lines 330-362) -/

/-- Sweep duration (line 330): `5000 / beamSpeed` ms. -/
def scanDuration (speed : ℚ) : ℚ := 5000 / speed

/-- Events of one raster scheduler run. -/
inductive REv where
  /-- Line 349: raster content opacity reset to the given value. -/
  | groupOpacity (v : ℚ)
  /-- Lines 350-353: linear opacity transition from `a` to `b` over `dur` ms. -/
  | groupFade (a b dur : ℚ)
  /-- Line 355: scanline snapped back to the top (`y1 = y2 = 0`). -/
  | scanlineReset
  /-- Lines 356-360: linear sweep of the scanline to `toY` over `dur` ms,
  with `runScanline` chained on its end. -/
  | scanSweep (toY dur : ℚ)
deriving DecidableEq, Repr

/-- Ambient state of one raster scheduler run. -/
structure RasterCtx where
  live : Nat → Bool
  beamSpeed : ℚ
  persistence : ℚ
  height : ℚ

/-- `runScanline` (lines 340-362): entry liveness check, then the opacity
reset, the ghosting decay transition, the scanline reset, and the sweep whose
completion (the next suspension) re-enters `runScanline` in the next slice. -/
def runScanline (ctx : RasterCtx) : Nat → Nat → List (Nat × REv)
  | 0, _ => []
  | fuel + 1, s =>
    if ctx.live s = false then []
    else
      [(s, REv.groupOpacity 1),
       (s, REv.groupFade 1 (1 / 5) (ctx.persistence + scanDuration ctx.beamSpeed)),
       (s, REv.scanlineReset),
       (s, REv.scanSweep ctx.height (scanDuration ctx.beamSpeed))]
      ++ runScanline ctx fuel (s + 1)

/-! ## Continuous-time read-outs of the raster transitions

d3 transitions with `easeLinear` interpolate attributes linearly in time: a
transition from `a` to `b` over duration `dur` has value `a + (b-a) * (t/dur)`
at elapsed time `t ∈ [0, dur]`. -/

/-- Scanline vertical position within one sweep: linear from `0` to `h` over
`dur` (lines 355-359). -/
def scanlineY (h dur t : ℚ) : ℚ := h * (t / dur)

/-- Scanline position as a function of total elapsed time across repeating
sweeps: the sweep restarts from the top every `dur` ms (sawtooth). -/
def scanPos (h dur t : ℚ) : ℚ := scanlineY h dur (t - dur * (⌊t / dur⌋ : ℤ))

/-- Raster content opacity at elapsed time `t` of the ghosting transition
(lines 349-353): linear from `1` to `1/5` over `persistence + scanDuration`. -/
def ghostOpacity (pers dur t : ℚ) : ℚ := 1 + (1 / 5 - 1) * (t / (pers + dur))

/-! ## Fixtures for concrete evaluations -/

/-- Fixture: an always-live vector context (beamSpeed 5, persistence 300,
140x140 viewport, a path-length oracle returning 60). -/
def vctxLive : VectorCtx :=
  { live := fun _ => true
    beamSpeed := 5
    persistence := 300
    width := 140
    height := 140
    totalLength := fun _ => 60 }

/-- Fixture: an always-live raster context. -/
def rctxLive : RasterCtx :=
  { live := fun _ => true, beamSpeed := 2, persistence := 300, height := 100 }

/-- Fixture: a vector context whose token dies from slice 2 on. -/
def vctxDies : VectorCtx :=
  { live := fun n => decide (n < 2)
    beamSpeed := 5
    persistence := 300
    width := 140
    height := 140
    totalLength := fun _ => 60 }

/-- Fixture: a glyph generator that always faults. -/
def genFaulty : GlyphGen := fun _ _ _ _ => Except.error "glyph generator fault"

/-- Fixture: a glyph generator producing one two-point glyph stroke. -/
def genReady : GlyphGen :=
  fun _ _ _ _ => Except.ok [{ id := "glyph", points := [⟨45, 5⟩, ⟨50, 5⟩], closed := false }]

/-- Fixture: an open single-point shape, as the first click in draw mode makes. -/
def dotShape : VectorShape := { id := "dot", points := [⟨10, 20⟩], closed := false }

/-- The expected event list of one vector cycle over the preset ship scene,
starting in slice `s`: blanking, then the trace of the single closed path
with its chained decay, then the restart timer. -/
def shipCycleEvents (ctx : VectorCtx) (s : Nat) : List (Nat × VEv) :=
  [(s, VEv.beamBlank (devicePoint ctx.width ctx.height ⟨50, 35⟩).1
        (devicePoint ctx.width ctx.height ⟨50, 35⟩).2),
   (s, VEv.awaitTimeout (blankingDelay ctx.beamSpeed)),
   (s + 1, VEv.pathRender ((tracePoints SHIP_SHAPE).map (devicePoint ctx.width ctx.height))),
   (s + 1, VEv.measureLength
        (ctx.totalLength ((tracePoints SHIP_SHAPE).map (devicePoint ctx.width ctx.height)))),
   (s + 1, VEv.dashSetup
        (ctx.totalLength ((tracePoints SHIP_SHAPE).map (devicePoint ctx.width ctx.height)))),
   (s + 1, VEv.beamOn),
   (s + 1, VEv.revealTransition
        (drawDuration
          (ctx.totalLength ((tracePoints SHIP_SHAPE).map (devicePoint ctx.width ctx.height)))
          ctx.beamSpeed)
        ctx.persistence),
   (s + 1, VEv.beamTransition
        (drawDuration
          (ctx.totalLength ((tracePoints SHIP_SHAPE).map (devicePoint ctx.width ctx.height)))
          ctx.beamSpeed)),
   (s + 2, VEv.timerSet (interCycleDelay ctx.beamSpeed))]

/-! ## Theorems -/

/-- Helper: the forward scale in closed form. -/
theorem xScale_eq (w px : ℚ) : xScale w px = 20 + px / 100 * (w - 40) := by
  unfold xScale d3ScaleLinear d3Normalize margin
  rw [if_neg (by norm_num)]
  ring

/-- Helper: exact round trip on one axis when the margin is strictly less
than half the dimension. -/
theorem roundTripX_exact (w px : ℚ) (hw : 2 * margin < w) (h0 : 0 ≤ px) (h1 : px ≤ 100) :
    roundTripX w px = px := by
  have hm : margin = 20 := rfl
  rw [hm] at hw
  have hw40 : (0 : ℚ) < w - 40 := by linarith
  have hX := xScale_eq w px
  have hfrac0 : 0 ≤ px / 100 * (w - 40) :=
    mul_nonneg (div_nonneg h0 (by norm_num)) hw40.le
  have hfrac1 : px / 100 * (w - 40) ≤ w - 40 := by
    have hle : px / 100 ≤ 1 := by
      rw [div_le_one (by norm_num : (0:ℚ) < 100)]; exact h1
    calc px / 100 * (w - 40) ≤ 1 * (w - 40) :=
          mul_le_mul_of_nonneg_right hle hw40.le
      _ = w - 40 := one_mul _
  have hlo : 20 ≤ xScale w px := by rw [hX]; linarith
  have hhi : xScale w px ≤ w - 20 := by rw [hX]; linarith
  have hclamp : d3Clamper margin (w - margin) (xScale w px) = xScale w px := by
    unfold d3Clamper
    rw [hm]
    rw [min_eq_left (by linarith : (20:ℚ) ≤ w - 20),
        max_eq_right (by linarith : (20:ℚ) ≤ w - 20),
        min_eq_right hhi, max_eq_right hlo]
  have h40 : w - 40 ≠ 0 := ne_of_gt hw40
  have h40' : w - 20 - 20 ≠ 0 := by intro hc; exact h40 (by linarith)
  unfold roundTripX logicalX d3ScaleLinearClamped
  rw [hclamp]
  unfold d3ScaleLinear d3Normalize
  rw [hm, if_neg h40']
  rw [hX]
  field_simp
  ring

/-- C2, counterexample: the claim admits a margin equal to half a dimension
("does not exceed half").  At viewport width 40 (margin 20 = width/2) the
inverse x scale's domain is degenerate, d3 maps every input to the midpoint
50, and the round trip of the logical point (0, 0) returns x = 50, not 0. -/
theorem C2_roundtrip_counterexample :
    margin ≤ 40 / 2 ∧ margin ≤ 100 / 2 ∧
    roundTripX 40 0 = 50 ∧ ¬ roundTripX 40 0 = 0 := by
  refine ⟨by norm_num [margin], by norm_num [margin], ?_, ?_⟩ <;>
    norm_num [roundTripX, logicalX, xScale, d3ScaleLinearClamped, d3ScaleLinear,
      d3Normalize, d3Clamper, margin]

/-- C2 (amended): for every logical point p in the 0-100 square and every
viewport in which the 20px margin is STRICTLY less than half of both
dimensions, the clamped inverse scales recover from the forward scales the
point p exactly (rational arithmetic, hence within any floating-point
tolerance). -/
theorem C2_roundTrip (w h : ℚ) (p : VectorPoint)
    (hw : 2 * margin < w) (hh : 2 * margin < h)
    (hx0 : 0 ≤ p.x) (hx1 : p.x ≤ 100) (hy0 : 0 ≤ p.y) (hy1 : p.y ≤ 100) :
    roundTripX w p.x = p.x ∧ roundTripY h p.y = p.y := by
  refine ⟨roundTripX_exact w p.x hw hx0 hx1, ?_⟩
  have : roundTripY h p.y = roundTripX h p.y := rfl
  rw [this]
  exact roundTripX_exact h p.y hh hy0 hy1

/-- C2 witness: the amended round trip at the point (30, 70) in a 140x140
viewport. -/
theorem C2_roundTrip_witness :
    roundTripX 140 30 = 30 ∧ roundTripY 140 70 = 70 :=
  C2_roundTrip 140 140 ⟨30, 70⟩ (by norm_num [margin]) (by norm_num [margin])
    (by norm_num) (by norm_num) (by norm_num) (by norm_num)

/-- C3: the trace duration `drawDuration len speed = len * 15 / (speed * 0.8)`
(line 250) is, for every fixed positive path length, strictly decreasing as
the integer beamSpeed increases over 1..10, and for every fixed beamSpeed it
is monotonically increasing in the path length. -/
theorem C3_drawDuration_monotone :
    (∀ (L : ℚ) (s1 s2 : ℕ), 0 < L → 1 ≤ s1 → s1 < s2 → s2 ≤ 10 →
        drawDuration L (s2 : ℚ) < drawDuration L (s1 : ℚ)) ∧
    (∀ (s : ℕ) (L1 L2 : ℚ), 1 ≤ s → s ≤ 10 → 0 ≤ L1 → L1 ≤ L2 →
        drawDuration L1 (s : ℚ) ≤ drawDuration L2 (s : ℚ)) := by
  constructor
  · intro L s1 s2 hL hs1 hlt _
    have hq1 : (1 : ℚ) ≤ (s1 : ℚ) := by exact_mod_cast hs1
    have hqlt : (s1 : ℚ) < (s2 : ℚ) := by exact_mod_cast hlt
    unfold drawDuration
    exact div_lt_div_of_pos_left (by nlinarith) (by nlinarith) (by nlinarith)
  · intro s L1 L2 hs _ h0 hle
    have hq1 : (1 : ℚ) ≤ (s : ℚ) := by exact_mod_cast hs
    unfold drawDuration
    gcongr

/-- C3 witness: fixed length 2, speeds 1 < 2; fixed speed 3, lengths 1 ≤ 2. -/
theorem C3_drawDuration_witness :
    drawDuration 2 ((2 : ℕ) : ℚ) < drawDuration 2 ((1 : ℕ) : ℚ) ∧
    drawDuration 1 ((3 : ℕ) : ℚ) ≤ drawDuration 2 ((3 : ℕ) : ℚ) :=
  ⟨C3_drawDuration_monotone.1 2 1 2 (by norm_num) (by norm_num) (by norm_num) (by norm_num),
   C3_drawDuration_monotone.2 3 1 2 (by norm_num) (by norm_num) (by norm_num) (by norm_num)⟩

/-- C4, counterexample: the blanking wait (line 197) is `200 / beamSpeed` ms
— at beamSpeed 1 it is 200 ms, at beamSpeed 10 it is 20 ms, so it is NOT
independent of beamSpeed. -/
theorem C4_blanking_counterexample :
    blankingDelay 1 = 200 ∧ blankingDelay 10 = 20 ∧ blankingDelay 1 ≠ blankingDelay 10 := by
  refine ⟨?_, ?_, ?_⟩ <;> norm_num [blankingDelay]

/-- C4 (amended): the blanking wait performed after moving the invisible beam
to the shape's first point is `200 / beamSpeed` ms — a short delay INVERSELY
PROPORTIONAL to beamSpeed (strictly decreasing in it), not independent of it.
The first two events of every non-empty shape's step are the invisible beam
move and that wait. -/
theorem C4_blankingDelay (ctx : VectorCtx) (s : Nat) (sh : VectorShape)
    (p0 : VectorPoint) (rest : List VectorPoint) (hpts : tracePoints sh = p0 :: rest) :
    ((shapeStep ctx s sh).1.take 2 =
      [(s, VEv.beamBlank (devicePoint ctx.width ctx.height p0).1
            (devicePoint ctx.width ctx.height p0).2),
       (s, VEv.awaitTimeout (blankingDelay ctx.beamSpeed))]) ∧
    blankingDelay ctx.beamSpeed = 200 / ctx.beamSpeed ∧
    (∀ v1 v2 : ℚ, 0 < v1 → v1 < v2 → blankingDelay v2 < blankingDelay v1) := by
  refine ⟨?_, rfl, ?_⟩
  · cases hl : ctx.live (s + 1) with
    | false => simp [shapeStep, hpts, hl]
    | true =>
      rcases rest with _ | ⟨q, qs⟩ <;>
        simp only [shapeStep, hpts, hl] <;>
        simp <;> split <;> simp
  · intro v1 v2 h1 h2
    unfold blankingDelay
    exact div_lt_div_of_pos_left (by norm_num) h1 h2

/-- C4 witness: the amended statement at the ship shape in the always-live
context, and the delay comparison at speeds 5 < 10. -/
theorem C4_blankingDelay_witness :
    ((shapeStep vctxLive 0 SHIP_SHAPE).1.take 2 =
      [(0, VEv.beamBlank (devicePoint vctxLive.width vctxLive.height ⟨50, 35⟩).1
            (devicePoint vctxLive.width vctxLive.height ⟨50, 35⟩).2),
       (0, VEv.awaitTimeout (blankingDelay vctxLive.beamSpeed))]) ∧
    blankingDelay 10 < blankingDelay 5 :=
  ⟨(C4_blankingDelay vctxLive 0 SHIP_SHAPE ⟨50, 35⟩
      [⟨65, 65⟩, ⟨50, 55⟩, ⟨35, 65⟩, ⟨50, 35⟩] rfl).1,
   (C4_blankingDelay vctxLive 0 SHIP_SHAPE ⟨50, 35⟩
      [⟨65, 65⟩, ⟨50, 55⟩, ⟨35, 65⟩, ⟨50, 35⟩] rfl).2.2 5 10 (by norm_num) (by norm_num)⟩

/-- C7: the scanline's vertical position within one sweep (lines 330-360) is
`h * t / scanDuration` with `scanDuration = 5000 / beamSpeed` — inversely
proportional to beamSpeed — strictly increasing from the top, never above the
viewport height; across sweeps the position is the periodic sawtooth
`scanPos`: it is `0` again at every sweep boundary while the in-sweep ramp
reaches `h` there (a discontinuous reset), and each later sweep repeats the
same upward ramp (never a ping-pong). -/
theorem C7_scanline_sawtooth (h speed : ℚ) (hh : 0 < h) (hs : 0 < speed) :
    scanDuration speed * speed = 5000 ∧
    (∀ t1 t2 : ℚ, 0 ≤ t1 → t1 < t2 → t2 ≤ scanDuration speed →
        scanlineY h (scanDuration speed) t1 < scanlineY h (scanDuration speed) t2) ∧
    (∀ t : ℚ, 0 ≤ t → t ≤ scanDuration speed →
        0 ≤ scanlineY h (scanDuration speed) t ∧ scanlineY h (scanDuration speed) t ≤ h) ∧
    (∀ k : ℕ, scanPos h (scanDuration speed) ((k : ℚ) * scanDuration speed) = 0) ∧
    (∀ t : ℚ, scanPos h (scanDuration speed) (t + scanDuration speed) =
        scanPos h (scanDuration speed) t) ∧
    scanlineY h (scanDuration speed) (scanDuration speed) = h := by
  have hD : 0 < scanDuration speed := div_pos (by norm_num) hs
  have hDne : scanDuration speed ≠ 0 := hD.ne'
  refine ⟨?_, ?_, ?_, ?_, ?_, ?_⟩
  · unfold scanDuration
    field_simp
  · intro t1 t2 _ hlt _
    unfold scanlineY
    have hdiv : t1 / scanDuration speed < t2 / scanDuration speed := by gcongr
    nlinarith
  · intro t ht0 ht1
    unfold scanlineY
    constructor
    · exact mul_nonneg hh.le (div_nonneg ht0 hD.le)
    · exact mul_le_of_le_one_right hh.le ((div_le_one hD).mpr ht1)
  · intro k
    have e1 : ((k : ℚ) * scanDuration speed) / scanDuration speed = (k : ℚ) :=
      mul_div_cancel_right₀ _ hDne
    have e2 : (k : ℚ) * scanDuration speed -
        scanDuration speed *
          ((⌊((k : ℚ) * scanDuration speed) / scanDuration speed⌋ : ℤ) : ℚ) = 0 := by
      rw [e1, Int.floor_natCast]
      push_cast
      ring
    unfold scanPos
    rw [e2]
    unfold scanlineY
    simp
  · intro t
    have e3 : (t + scanDuration speed) / scanDuration speed = t / scanDuration speed + 1 := by
      field_simp
    unfold scanPos
    rw [e3, Int.floor_add_one]
    congr 1
    push_cast
    ring
  · unfold scanlineY
    rw [div_self hDne, mul_one]

/-- C7 witness: concrete sawtooth facts at viewport height 100 and beamSpeed 2
(sweep duration 2500 ms). -/
theorem C7_scanline_witness :
    scanDuration 2 * 2 = 5000 ∧
    scanlineY 100 (scanDuration 2) 1000 < scanlineY 100 (scanDuration 2) 2000 ∧
    scanPos 100 (scanDuration 2) (((3 : ℕ) : ℚ) * scanDuration 2) = 0 ∧
    scanlineY 100 (scanDuration 2) (scanDuration 2) = 100 :=
  ⟨(C7_scanline_sawtooth 100 2 (by norm_num) (by norm_num)).1,
   (C7_scanline_sawtooth 100 2 (by norm_num) (by norm_num)).2.1 1000 2000
      (by norm_num) (by norm_num) (by norm_num [scanDuration]),
   (C7_scanline_sawtooth 100 2 (by norm_num) (by norm_num)).2.2.2.1 3,
   (C7_scanline_sawtooth 100 2 (by norm_num) (by norm_num)).2.2.2.2.2⟩

/-- C8: each raster cycle (lines 349-353) first resets the scene to fully
opaque, then runs a linear opacity transition from 1 down to the non-zero
floor 1/5 over `persistence + scanDuration` ms; the interpolated opacity is
1 at the start, 1/5 at the end, monotonically decreasing, and never leaves
`[1/5, 1]` — the scene never fades fully to black. -/
theorem C8_ghosting (ctx : RasterCtx) (fuel s : Nat)
    (hlive : ctx.live s = true) (hp : 0 < ctx.persistence) (hs : 0 < ctx.beamSpeed) :
    ((runScanline ctx (fuel + 1) s).take 2 =
      [(s, REv.groupOpacity 1),
       (s, REv.groupFade 1 (1 / 5) (ctx.persistence + scanDuration ctx.beamSpeed))]) ∧
    ghostOpacity ctx.persistence (scanDuration ctx.beamSpeed) 0 = 1 ∧
    ghostOpacity ctx.persistence (scanDuration ctx.beamSpeed)
        (ctx.persistence + scanDuration ctx.beamSpeed) = 1 / 5 ∧
    (∀ t1 t2 : ℚ, 0 ≤ t1 → t1 ≤ t2 → t2 ≤ ctx.persistence + scanDuration ctx.beamSpeed →
        ghostOpacity ctx.persistence (scanDuration ctx.beamSpeed) t2 ≤
          ghostOpacity ctx.persistence (scanDuration ctx.beamSpeed) t1) ∧
    (∀ t : ℚ, 0 ≤ t → t ≤ ctx.persistence + scanDuration ctx.beamSpeed →
        1 / 5 ≤ ghostOpacity ctx.persistence (scanDuration ctx.beamSpeed) t ∧
        ghostOpacity ctx.persistence (scanDuration ctx.beamSpeed) t ≤ 1) := by
  have hD : 0 < scanDuration ctx.beamSpeed := div_pos (by norm_num) hs
  have hT : 0 < ctx.persistence + scanDuration ctx.beamSpeed := by linarith
  refine ⟨?_, ?_, ?_, ?_, ?_⟩
  · simp [runScanline, hlive]
  · unfold ghostOpacity
    simp
  · unfold ghostOpacity
    rw [div_self hT.ne']
    ring
  · intro t1 t2 h0 hle hhi
    have hdiv : t1 / (ctx.persistence + scanDuration ctx.beamSpeed) ≤
        t2 / (ctx.persistence + scanDuration ctx.beamSpeed) := by gcongr
    unfold ghostOpacity
    nlinarith
  · intro t h0 h1
    have hx0 : 0 ≤ t / (ctx.persistence + scanDuration ctx.beamSpeed) :=
      div_nonneg h0 hT.le
    have hx1 : t / (ctx.persistence + scanDuration ctx.beamSpeed) ≤ 1 :=
      (div_le_one hT).mpr h1
    unfold ghostOpacity
    constructor <;> nlinarith

/-- C8 witness: the cycle-start reset and the initial opacity in the
always-live raster context (persistence 300, beamSpeed 2). -/
theorem C8_ghosting_witness :
    ((runScanline rctxLive 1 0).take 2 =
      [(0, REv.groupOpacity 1),
       (0, REv.groupFade 1 (1 / 5) (rctxLive.persistence + scanDuration rctxLive.beamSpeed))]) ∧
    ghostOpacity rctxLive.persistence (scanDuration rctxLive.beamSpeed) 0 = 1 :=
  ⟨(C8_ghosting rctxLive 0 0 rfl (by norm_num [rctxLive]) (by norm_num [rctxLive])).1,
   (C8_ghosting rctxLive 0 0 rfl (by norm_num [rctxLive]) (by norm_num [rctxLive])).2.1⟩

/-- C9: when the external glyph generator faults in text mode, the
`try/catch` around scene assembly (lines 122-138) leaves the scene at its
initial `[]`; the fault never reaches the scheduler (scene assembly is total
and returns normally), the beam animation is not even started on the empty
scene (line 171 guard), and the display keeps the unconditionally drawn
background grid only. -/
theorem C9_textFault (gen : GlyphGen) (pts : List VectorPoint) (txt : String)
    (e : String) (hfail : gen (fallbackText txt) 5 45 5 = Except.error e) :
    shapesToDraw gen ContentMode.TEXT pts txt = [] ∧
    (∀ (ctx : VectorCtx) (fuel : Nat),
        startVectorAnimation ctx (shapesToDraw gen ContentMode.TEXT pts txt) fuel = []) := by
  have h1 : shapesToDraw gen ContentMode.TEXT pts txt = [] := by
    unfold shapesToDraw
    rw [hfail]
  refine ⟨h1, fun ctx fuel => ?_⟩
  rw [h1]
  rfl

/-- C9 witness: the always-faulting generator yields the empty scene and no
scheduler activity. -/
theorem C9_textFault_witness :
    shapesToDraw genFaulty ContentMode.TEXT [] "HELLO" = [] ∧
    startVectorAnimation vctxLive (shapesToDraw genFaulty ContentMode.TEXT [] "HELLO") 3 = [] :=
  ⟨(C9_textFault genFaulty [] "HELLO" "glyph generator fault" rfl).1,
   (C9_textFault genFaulty [] "HELLO" "glyph generator fault" rfl).2 vctxLive 3⟩

/-- C10: in text mode with the empty string, JavaScript's falsy-string
fallback (line 134) invokes the glyph generator with the literal `"READY"`
and arguments (baseline-y 5, start-x 45, spacing 5); the scene is exactly the
generator's output for READY, hence non-empty whenever the generator yields
any shape for it — an empty text input renders READY, not a blank display. -/
theorem C10_readyFallback (gen : GlyphGen) (pts : List VectorPoint)
    (shapes : List VectorShape) (hok : gen "READY" 5 45 5 = Except.ok shapes)
    (hne : shapes ≠ []) :
    fallbackText "" = "READY" ∧
    shapesToDraw gen ContentMode.TEXT pts "" = shapes ∧
    shapesToDraw gen ContentMode.TEXT pts "" ≠ [] := by
  have h2 : shapesToDraw gen ContentMode.TEXT pts "" = shapes := by
    unfold shapesToDraw
    rw [show fallbackText "" = "READY" from rfl, hok]
  exact ⟨rfl, h2, by rw [h2]; exact hne⟩

/-- C10 witness: a generator producing one glyph stroke for READY gives a
non-empty scene for the empty text input. -/
theorem C10_readyFallback_witness :
    shapesToDraw genReady ContentMode.TEXT [] "" =
      [{ id := "glyph", points := [⟨45, 5⟩, ⟨50, 5⟩], closed := false }] ∧
    shapesToDraw genReady ContentMode.TEXT [] "" ≠ [] :=
  ⟨(C10_readyFallback genReady []
      [{ id := "glyph", points := [⟨45, 5⟩, ⟨50, 5⟩], closed := false }] rfl
      (by simp)).2.1,
   (C10_readyFallback genReady []
      [{ id := "glyph", points := [⟨45, 5⟩, ⟨50, 5⟩], closed := false }] rfl
      (by simp)).2.2⟩

/-- Helper for C1: every event emitted by one shape body is tagged with a
slice in which the liveness flag was true (the body is entered after the
loop-head check, and the post-blanking re-check guards everything later). -/
theorem shapeStep_live (ctx : VectorCtx) (s : Nat) (sh : VectorShape)
    (hs : ctx.live s = true) {t : Nat} {e : VEv}
    (ht : (t, e) ∈ (shapeStep ctx s sh).1) : ctx.live t = true := by
  cases hpts : tracePoints sh with
  | nil => simp [shapeStep, hpts] at ht
  | cons p0 rest =>
    cases hl : ctx.live (s + 1) with
    | false =>
      simp only [shapeStep, hpts, hl] at ht
      simp at ht
      rcases ht with ⟨h1, _⟩ | ⟨h1, _⟩ <;> rw [h1] <;> exact hs
    | true =>
      rcases rest with _ | ⟨q, qs⟩
      · simp only [shapeStep, hpts, hl] at ht
        simp at ht
        rcases ht with ⟨h1, _⟩ | ⟨h1, _⟩ | ⟨h1, _⟩ | ⟨h1, _⟩ | ⟨h1, _⟩ <;>
          rw [h1] <;> first | exact hs | exact hl
      · simp only [shapeStep, hpts, hl] at ht
        rw [if_neg (by simp : ¬(true = false)),
            if_neg (by simp : ¬(q :: qs = ([] : List VectorPoint)))] at ht
        split at ht
        · simp at ht
          rcases ht with
            ⟨h1, _⟩ | ⟨h1, _⟩ | ⟨h1, _⟩ | ⟨h1, _⟩ | ⟨h1, _⟩ | ⟨h1, _⟩ | ⟨h1, _⟩ | ⟨h1, _⟩ <;>
            rw [h1] <;> first | exact hs | exact hl
        · simp at ht
          rcases ht with ⟨h1, _⟩ | ⟨h1, _⟩ | ⟨h1, _⟩ | ⟨h1, _⟩ | ⟨h1, _⟩ | ⟨h1, _⟩ <;>
            rw [h1] <;> first | exact hs | exact hl

/-- Helper for C1: the shape loop only emits events in live slices. -/
theorem cycleShapes_live (ctx : VectorCtx) (shapes : List VectorShape) :
    ∀ (s t : Nat) (e : VEv), (t, e) ∈ (cycleShapes ctx s shapes).1 → ctx.live t = true := by
  induction shapes with
  | nil => intro s t e ht; simp [cycleShapes] at ht
  | cons sh rest ih =>
    intro s t e ht
    cases hl : ctx.live s with
    | false => simp [cycleShapes, hl] at ht
    | true =>
      simp only [cycleShapes, hl] at ht
      rw [if_neg (by simp : ¬(true = false))] at ht
      rcases hstep : shapeStep ctx s sh with ⟨evs, s1, ok⟩
      rw [hstep] at ht
      cases ok with
      | true =>
        simp at ht
        rcases ht with ht | ht
        · exact shapeStep_live ctx s sh hl (by rw [hstep]; exact ht)
        · exact ih s1 t e ht
      | false =>
        simp at ht
        exact shapeStep_live ctx s sh hl (by rw [hstep]; exact ht)

/-- Helper for C1: a whole vector scheduler run only emits events (display
mutations and timer registrations) in live slices. -/
theorem animateVectorCycle_live (ctx : VectorCtx) (shapes : List VectorShape) :
    ∀ (fuel s t : Nat) (e : VEv),
      (t, e) ∈ animateVectorCycle ctx shapes fuel s → ctx.live t = true := by
  intro fuel
  induction fuel with
  | zero => intro s t e ht; simp [animateVectorCycle] at ht
  | succ n ih =>
    intro s t e ht
    cases hl : ctx.live s with
    | false => simp [animateVectorCycle, hl] at ht
    | true =>
      simp only [animateVectorCycle, hl] at ht
      rw [if_neg (by simp : ¬(true = false))] at ht
      rcases hcyc : cycleShapes ctx s shapes with ⟨evs, s1, ok⟩
      rw [hcyc] at ht
      cases ok with
      | true =>
        cases hl1 : ctx.live s1 with
        | false =>
          simp [hl1] at ht
          exact cycleShapes_live ctx shapes s t e (by rw [hcyc]; exact ht)
        | true =>
          simp [hl1] at ht
          rcases ht with ht | ⟨h1, _⟩ | ht
          · exact cycleShapes_live ctx shapes s t e (by rw [hcyc]; exact ht)
          · rw [h1]; exact hl1
          · exact ih (s1 + 1) t e ht
      | false =>
        simp at ht
        exact cycleShapes_live ctx shapes s t e (by rw [hcyc]; exact ht)

/-- Helper for C1: a raster scheduler run only emits events in live slices. -/
theorem runScanline_live (ctx : RasterCtx) :
    ∀ (fuel s t : Nat) (e : REv), (t, e) ∈ runScanline ctx fuel s → ctx.live t = true := by
  intro fuel
  induction fuel with
  | zero => intro s t e ht; simp [runScanline] at ht
  | succ n ih =>
    intro s t e ht
    cases hl : ctx.live s with
    | false => simp [runScanline, hl] at ht
    | true =>
      simp only [runScanline, hl] at ht
      rw [if_neg (by simp : ¬(true = false))] at ht
      simp at ht
      rcases ht with ⟨h1, _⟩ | ⟨h1, _⟩ | ⟨h1, _⟩ | ⟨h1, _⟩ | ht
      · rw [h1]; exact hl
      · rw [h1]; exact hl
      · rw [h1]; exact hl
      · rw [h1]; exact hl
      · exact ih (s + 1) t e ht

/-- C1: for both scheduler runs, every display mutation and every timer
registration is performed in a slice whose liveness value is true.  Hence
once the generation/liveness token is invalidated (by an input change or
teardown), no later resumption at any suspension point — blanking wait,
transition completion, inter-cycle delay, or sweep completion — mutates the
display or registers a further timer: the run re-checks the flag (lines
182/185/198/286/341) and halts.  Transition-chained callbacks are covered
because the cleanup (lines 365-368) interrupts all transitions in the same
tick in which it clears the flag. -/
theorem C1_token_halts :
    (∀ (ctx : VectorCtx) (shapes : List VectorShape) (fuel s t : Nat) (e : VEv),
        (t, e) ∈ animateVectorCycle ctx shapes fuel s → ctx.live t = true) ∧
    (∀ (ctx : RasterCtx) (fuel s t : Nat) (e : REv),
        (t, e) ∈ runScanline ctx fuel s → ctx.live t = true) :=
  ⟨fun ctx shapes fuel s t e ht => animateVectorCycle_live ctx shapes fuel s t e ht,
   fun ctx fuel s t e ht => runScanline_live ctx fuel s t e ht⟩

/-- C1 witness: in the context whose token dies from slice 2 on, the length
measurement happens in slice 1 — which the theorem certifies as live; the
raster reset of slice 0 likewise. -/
theorem C1_token_halts_witness :
    vctxDies.live 1 = true ∧ rctxLive.live 0 = true :=
  ⟨C1_token_halts.1 vctxDies [SHIP_SHAPE] 1 0 1 (VEv.measureLength 60) (by decide),
   C1_token_halts.2 rctxLive 1 0 0 REv.scanlineReset (by decide)⟩

/-- C5, counterexample: the ship is a closed 4-point polygon, so the traced
point sequence is the 4 stored points plus the virtual closing point — 5
points, i.e. 4 segments, not the claimed 5. -/
theorem C5_segments_counterexample :
    (tracePoints SHIP_SHAPE).length - 1 = 4 ∧ ¬ (tracePoints SHIP_SHAPE).length - 1 = 5 := by
  decide

/-- C5 (amended): for the scene consisting of the single preset closed
4-point polygon, one vector cycle visits exactly 4 segments (3 edges plus 1
closing edge) through the Blanking (beam move + wait) → Tracing (path
reveal + beam tween) → Decaying (the decay chained on the reveal's end)
sequence, then schedules the restart timer and repeats from shape 0. -/
theorem C5_shipCycle (ctx : VectorCtx) (fuel s : Nat)
    (hlive : ∀ n, ctx.live n = true)
    (hlen : 0 < ctx.totalLength
        ((tracePoints SHIP_SHAPE).map (devicePoint ctx.width ctx.height))) :
    animateVectorCycle ctx [SHIP_SHAPE] (fuel + 1) s =
      shipCycleEvents ctx s ++ animateVectorCycle ctx [SHIP_SHAPE] fuel (s + 3) ∧
    (tracePoints SHIP_SHAPE).length - 1 = 4 := by
  refine ⟨?_, by decide⟩
  simp [tracePoints, SHIP_SHAPE] at hlen
  simp [animateVectorCycle, cycleShapes, shapeStep, shipCycleEvents, tracePoints,
    SHIP_SHAPE, hlive, hlen]

/-- C5 witness: the amended cycle shape at the always-live context. -/
theorem C5_shipCycle_witness :
    animateVectorCycle vctxLive [SHIP_SHAPE] 1 0 =
      shipCycleEvents vctxLive 0 ++ animateVectorCycle vctxLive [SHIP_SHAPE] 0 3 ∧
    (tracePoints SHIP_SHAPE).length - 1 = 4 :=
  C5_shipCycle vctxLive 0 0 (fun _ => rfl) (by norm_num [vctxLive])

/-- C6: a shape whose traced point sequence P (the stored points, plus the
virtual closing point for closed shapes, per the per-shape trace routine) has
exactly one point produces: the invisible beam move, the blanking wait, and a
flash dot at that point fading over the persistence duration — an exact
rational, hence finite and non-NaN, independent of the path-length oracle and
of beamSpeed — and then continues to the next shape (flag true) without any
Tracing or Decaying event and without any arclength measurement. -/
theorem C6_singlePointFlash (ctx : VectorCtx) (s : Nat) (sh : VectorShape) (p : VectorPoint)
    (hpts : tracePoints sh = [p]) (hlive : ctx.live (s + 1) = true) :
    shapeStep ctx s sh =
      ([(s, VEv.beamBlank (devicePoint ctx.width ctx.height p).1
            (devicePoint ctx.width ctx.height p).2),
        (s, VEv.awaitTimeout (blankingDelay ctx.beamSpeed)),
        (s + 1, VEv.beamOn),
        (s + 1, VEv.dotFlash (devicePoint ctx.width ctx.height p).1
            (devicePoint ctx.width ctx.height p).2 ctx.persistence),
        (s + 1, VEv.awaitTimeout 100)], s + 2, true) ∧
    (∀ (t : Nat) (len : ℚ), (t, VEv.measureLength len) ∉ (shapeStep ctx s sh).1) ∧
    (∀ (t : Nat) (d f : ℚ), (t, VEv.revealTransition d f) ∉ (shapeStep ctx s sh).1) ∧
    (∀ (t : Nat) (d : ℚ), (t, VEv.beamTransition d) ∉ (shapeStep ctx s sh).1) := by
  have h1 : shapeStep ctx s sh =
      ([(s, VEv.beamBlank (devicePoint ctx.width ctx.height p).1
            (devicePoint ctx.width ctx.height p).2),
        (s, VEv.awaitTimeout (blankingDelay ctx.beamSpeed)),
        (s + 1, VEv.beamOn),
        (s + 1, VEv.dotFlash (devicePoint ctx.width ctx.height p).1
            (devicePoint ctx.width ctx.height p).2 ctx.persistence),
        (s + 1, VEv.awaitTimeout 100)], s + 2, true) := by
    simp [shapeStep, hpts, hlive]
  refine ⟨h1, ?_, ?_, ?_⟩
  · intro t len hmem
    rw [h1] at hmem
    simp at hmem
  · intro t d f hmem
    rw [h1] at hmem
    simp at hmem
  · intro t d hmem
    rw [h1] at hmem
    simp at hmem

/-- C6 witness: the single-point draw shape in the always-live context
flashes and proceeds; no arclength measurement event occurs. -/
theorem C6_singlePointFlash_witness :
    shapeStep vctxLive 0 dotShape =
      ([(0, VEv.beamBlank (devicePoint vctxLive.width vctxLive.height ⟨10, 20⟩).1
            (devicePoint vctxLive.width vctxLive.height ⟨10, 20⟩).2),
        (0, VEv.awaitTimeout (blankingDelay vctxLive.beamSpeed)),
        (1, VEv.beamOn),
        (1, VEv.dotFlash (devicePoint vctxLive.width vctxLive.height ⟨10, 20⟩).1
            (devicePoint vctxLive.width vctxLive.height ⟨10, 20⟩).2 vctxLive.persistence),
        (1, VEv.awaitTimeout 100)], 2, true) ∧
    (1, VEv.measureLength 60) ∉ (shapeStep vctxLive 0 dotShape).1 :=
  ⟨(C6_singlePointFlash vctxLive 0 dotShape ⟨10, 20⟩ rfl rfl).1,
   (C6_singlePointFlash vctxLive 0 dotShape ⟨10, 20⟩ rfl rfl).2.1 1 60⟩
